import Mathlib

/-!
Shallow embedding of `src/llm_client/llm_client.py` (class `LLMClient`):
credential resolution, backend auto-selection, default-model table, and the
`chat_completion` dispatch.  Machine-level details are modelled as follows:

* `os.getenv` results (after `load_dotenv`) are an `Env` of two
  `Option String` values; Python truthiness of an optional string
  (`if self.openai_api_key:`) is the predicate `truthy`.
* The Google-Colab fallback block (`try: ... except ImportError: pass`) is
  modelled by `colabFallback` over a `ColabEnv` that says whether the runtime
  looks like Colab, whether `from google.colab import userdata` succeeds, and
  what `userdata.get` does for each key (it may raise; only `ImportError` is
  caught by the source).
* Python exceptions become `Except` errors; `ValueError` for an invalid
  `api_choice` carries the offending value and the valid set, as the source's
  message does.
* Floats that are only stored and passed through (`temperature` and the fixed
  Ollama sampling constants) are modelled as `Rat`.
* The provider SDKs are external: constructing `OpenAI(api_key=...)` /
  `Groq(api_key=...)` is modelled as building a `ProviderClient` value bound
  to the key, and the network calls of `chat_completion` go through an
  abstract `Transport` record supplied by the environment.
-/

namespace LLMSpec

/-- Python truthiness of an optional string: `None` and `""` are falsy. -/
def truthy : Option String → Bool
  | none => false
  | some s => !(s == "")

/-- The two recognized environment keys, as read by `os.getenv` after
`load_dotenv(secrets_path)` has (possibly) run. -/
structure Env where
  openai_api_key : Option String
  groq_api_key : Option String

/-- A Python exception raised inside the Colab-fallback `try` block:
either an `ImportError` (the only kind the source catches) or any other
exception, e.g. Colab's `SecretNotFoundError` raised by `userdata.get`. -/
inductive PyExc where
  | importError
  | otherError (msg : String)
deriving DecidableEq, Repr

/-- The hosted-runtime (Google Colab) side of the world. -/
structure ColabEnv where
  /-- `"google.colab" in sys.modules or "COLAB_GPU" in os.environ` -/
  inColab : Bool
  /-- whether `from google.colab import userdata` succeeds -/
  importOk : Bool
  /-- behaviour of `userdata.get key`: a value (possibly `None`) or an
  exception -/
  userdataGet : String → Except PyExc (Option String)

/-- Body of the `try` block at lines 87–97 of the source: runs the Colab
probe and, key by key, fills a key that is still `None` from `userdata`.
Returns the (possibly partially updated) pair of keys together with the
exception that escaped the block, if any. -/
def colabBody (c : ColabEnv) (ok gk : Option String) :
    Option String × Option String × Option PyExc :=
  if c.inColab then
    if c.importOk then
      match (if ok.isNone then c.userdataGet "OPENAI_API_KEY" else .ok ok) with
      | .error e => (ok, gk, some e)
      | .ok ok' =>
        match (if gk.isNone then c.userdataGet "GROQ_API_KEY" else .ok gk) with
        | .error e => (ok', gk, some e)
        | .ok gk' => (ok', gk', none)
    else (ok, gk, some .importError)
  else (ok, gk, none)

/-- The whole `try ... except ImportError: pass` statement: an `ImportError`
is swallowed (keeping whatever assignments already happened); any other
exception propagates. -/
def colabFallback (c : ColabEnv) (ok gk : Option String) :
    Except PyExc (Option String × Option String) :=
  match colabBody c ok gk with
  | (ok', gk', none) => .ok (ok', gk')
  | (ok', gk', some .importError) => .ok (ok', gk')
  | (_, _, some (.otherError m)) => .error (.otherError m)

/-- The whole world the constructor reads: environment keys (post
`load_dotenv`), the Colab runtime, and which provider libraries imported
successfully at module load. -/
structure World where
  env : Env
  colab : ColabEnv
  /-- `OpenAI is not None` at module level -/
  openaiAvail : Bool
  /-- `Groq is not None` at module level -/
  groqAvail : Bool
  /-- `ollama is not None` at module level -/
  ollamaAvail : Bool

/-- Steps 1–2 of `__init__`: read both keys from the environment and, when at
least one is `None`, run the Colab fallback block. -/
def resolveKeys (w : World) : Except PyExc (Option String × Option String) :=
  let ok := w.env.openai_api_key
  let gk := w.env.groq_api_key
  if ok.isNone || gk.isNone then colabFallback w.colab ok gk else .ok (ok, gk)

/-- The source's `valid_choices = {"openai", "groq", "ollama"}`. -/
def validChoices : List String := ["openai", "groq", "ollama"]

/-- Python's `str.lower()` on the identifiers at hand (ASCII lowercasing),
written structurally so it evaluates by reduction. -/
def strLower (s : String) : String := ⟨s.data.map Char.toLower⟩

/-- Errors the constructor can raise: the `ValueError` of step 3 (carrying
the offending value and the valid set, as the source's message does) or an
exception escaping the Colab fallback. -/
inductive InitError where
  | valueError (invalidChoice : String) (valid : List String)
  | exc (e : PyExc)
deriving DecidableEq, Repr

/-- Step 3 of `__init__`: automatic API selection by truthiness of the keys
with precedence openai > groq > ollama, or validation and lowercasing of an
explicit `api_choice`. -/
def chooseApi (ok gk : Option String) (api_choice : Option String) :
    Except InitError String :=
  match api_choice with
  | none =>
    .ok (if truthy ok then "openai" else if truthy gk then "groq" else "ollama")
  | some c =>
    if strLower c ∈ validChoices then .ok (strLower c)
    else .error (.valueError c validChoices)

/-- Step 4 of `__init__`: `if llm:` keeps a truthy (non-empty) explicit model
verbatim, otherwise the per-backend default table applies. -/
def resolveLLM (llm : Option String) (choice : String) : String :=
  match llm with
  | some s =>
    if s == "" then defaultModel choice else s
  | none => defaultModel choice
where
  /-- the fixed per-backend default-model table -/
  defaultModel (choice : String) : String :=
    if choice == "openai" then "gpt-4o-mini"
    else if choice == "groq" then "moonshotai/kimi-k2-instruct-0905"
    else "llama3.2:1b"

/-- A constructed provider SDK client object, bound to the key it was given
(`OpenAI(api_key=self.openai_api_key)` / `Groq(api_key=self.groq_api_key)`). -/
inductive ProviderClient where
  | openai (api_key : Option String)
  | groq (api_key : Option String)
deriving DecidableEq, Repr

/-- Step 5 of `__init__`: `self.client` is constructed only for a cloud
backend whose library imported; otherwise it stays `None`. -/
def mkProvider (w : World) (choice : String) (ok gk : Option String) :
    Option ProviderClient :=
  if choice == "openai" && w.openaiAvail then some (.openai ok)
  else if choice == "groq" && w.groqAvail then some (.groq gk)
  else none

/-- The attributes an `LLMClient` instance holds after `__init__`. -/
structure LLMClient where
  openai_api_key : Option String
  groq_api_key : Option String
  api_choice : String
  llm : String
  temperature : Rat
  max_tokens : Int
  keep_alive : String
  client : Option ProviderClient
deriving DecidableEq, Repr

/-- The constructor arguments (with their defaults captured by
`InitArgs.default`); `secrets_path` is folded into `World.env`, which is the
state of the environment after `load_dotenv`. -/
structure InitArgs where
  llm : Option String
  temperature : Rat
  max_tokens : Int
  api_choice : Option String
  keep_alive : String
deriving DecidableEq, Repr

/-- The defaults of `__init__`'s signature. -/
def InitArgs.default : InitArgs :=
  { llm := none, temperature := 7/10, max_tokens := 512,
    api_choice := none, keep_alive := "5m" }

/-- `LLMClient.__init__`, assembled from steps 1–5. -/
def LLMClient.init (w : World) (a : InitArgs) : Except InitError LLMClient :=
  match resolveKeys w with
  | .error e => .error (.exc e)
  | .ok (ok, gk) =>
    match chooseApi ok gk a.api_choice with
    | .error e => .error e
    | .ok choice =>
      .ok { openai_api_key := ok
            groq_api_key := gk
            api_choice := choice
            llm := resolveLLM a.llm choice
            temperature := a.temperature
            max_tokens := a.max_tokens
            keep_alive := a.keep_alive
            client := mkProvider w choice ok gk }

/-- A chat message: `{"role": ..., "content": ...}`. -/
structure Message where
  role : String
  content : String
deriving DecidableEq, Repr

/-- `message` object inside one element of a cloud response's `choices`. -/
structure ChoiceMessage where
  content : String
deriving DecidableEq, Repr

/-- One element of `response.choices` of the OpenAI/Groq SDKs. -/
structure Choice where
  message : ChoiceMessage
deriving DecidableEq, Repr

/-- Response envelope of `client.chat.completions.create` (OpenAI/Groq). -/
structure CloudResponse where
  choices : List Choice
deriving DecidableEq, Repr

/-- The `message` field of an Ollama response envelope. -/
structure OllamaMessage where
  content : String
deriving DecidableEq, Repr

/-- Response envelope of `ollama.chat`. -/
structure OllamaResponse where
  message : OllamaMessage
deriving DecidableEq, Repr

/-- The `options` dict passed to `ollama.chat`. -/
structure OllamaOptions where
  temperature : Rat
  num_predict : Int
  repeat_penalty : Rat
  top_k : Int
  top_p : Rat
deriving DecidableEq, Repr

/-- The external provider calls, abstracted: `openaiCreate`/`groqCreate`
model `client.chat.completions.create(model, messages, temperature,
max_tokens)` and `ollamaChat` models
`ollama.chat(model, messages, stream, options, keep_alive)`. -/
structure Transport where
  openaiCreate : String → List Message → Rat → Int → CloudResponse
  groqCreate : String → List Message → Rat → Int → CloudResponse
  ollamaChat : String → List Message → Bool → OllamaOptions → String → OllamaResponse

/-- Exceptions `chat_completion` can raise: the two `RuntimeError`s for an
unavailable client/library, the `IndexError` of `response.choices[0]` on an
empty choice list, and the final `ValueError` for an out-of-set
`api_choice`. -/
inductive ChatError where
  | runtimeError (msg : String)
  | indexError
  | valueError (msg : String)
deriving DecidableEq, Repr

/-- `LLMClient.chat_completion`: dispatch on `self.api_choice`.  Cloud
branches fail with `RuntimeError` when `self.client` is `None` (falsy),
otherwise call the SDK and return `response.choices[0].message.content`.
The Ollama branch fails with `RuntimeError` when the `ollama` module is
unavailable, otherwise calls `ollama.chat` with `stream=False`, the fixed
sampling options and `keep_alive`, and returns
`response["message"]["content"]`. -/
def LLMClient.chat_completion (ollamaAvail : Bool) (t : Transport)
    (c : LLMClient) (messages : List Message) : Except ChatError String :=
  if c.api_choice == "openai" then
    match c.client with
    | none => .error (.runtimeError "OpenAI client not available or not installed.")
    | some _ =>
      match (t.openaiCreate c.llm messages c.temperature c.max_tokens).choices.head? with
      | some ch => .ok ch.message.content
      | none => .error .indexError
  else if c.api_choice == "groq" then
    match c.client with
    | none => .error (.runtimeError "Groq client not available or not installed.")
    | some _ =>
      match (t.groqCreate c.llm messages c.temperature c.max_tokens).choices.head? with
      | some ch => .ok ch.message.content
      | none => .error .indexError
  else if c.api_choice == "ollama" then
    if !ollamaAvail then
      .error (.runtimeError
        ("Ollama Python package not available. " ++
         "Please install it via `pip install ollama`."))
    else
      .ok ((t.ollamaChat c.llm messages false
            { temperature := c.temperature
              num_predict := c.max_tokens
              repeat_penalty := 6/5
              top_k := 10
              top_p := 1/2 } c.keep_alive).message.content)
  else .error (.valueError ("Unsupported API choice: " ++ c.api_choice))

/-- A sample world outside the hosted runtime, with all three provider
libraries importable and the given environment keys. -/
def plainWorld (ok gk : Option String) : World :=
  { env := { openai_api_key := ok, groq_api_key := gk },
    colab := { inColab := false, importOk := false, userdataGet := fun _ => .ok none },
    openaiAvail := true, groqAvail := true, ollamaAvail := true }

/-- A sample transport whose every backend answers with the same fixed
completion string. -/
def echoTransport (reply : String) : Transport :=
  { openaiCreate := fun _ _ _ _ => { choices := [{ message := { content := reply } }] },
    groqCreate := fun _ _ _ _ => { choices := [{ message := { content := reply } }] },
    ollamaChat := fun _ _ _ _ _ => { message := { content := reply } } }

/-! ### Helper lemmas -/

/-- Outside the hosted runtime the fallback block is inert: the keys the
constructor ends up with are exactly the environment lookups. -/
theorem resolveKeys_noColab (w : World) (h : w.colab.inColab = false) :
    resolveKeys w = .ok (w.env.openai_api_key, w.env.groq_api_key) := by
  simp only [resolveKeys]
  split
  · unfold colabFallback colabBody
    rw [h]
    simp
  · rfl

/-- When both environment keys are set (even to empty strings), the fallback
block does not run at all. -/
theorem resolveKeys_bothSet (w : World) (o g : String)
    (ho : w.env.openai_api_key = some o) (hg : w.env.groq_api_key = some g) :
    resolveKeys w = .ok (some o, some g) := by
  simp [resolveKeys, ho, hg]

/-- Inversion principle for the constructor: a successful construction is
exactly a successful key resolution followed by a successful API choice,
and the instance's fields are determined by those. -/
theorem init_ok_iff (w : World) (a : InitArgs) (c : LLMClient) :
    LLMClient.init w a = .ok c ↔
      ∃ ok gk choice, resolveKeys w = .ok (ok, gk) ∧
        chooseApi ok gk a.api_choice = .ok choice ∧
        c = { openai_api_key := ok
              groq_api_key := gk
              api_choice := choice
              llm := resolveLLM a.llm choice
              temperature := a.temperature
              max_tokens := a.max_tokens
              keep_alive := a.keep_alive
              client := mkProvider w choice ok gk } := by
  unfold LLMClient.init
  cases hk : resolveKeys w with
  | error e => simp [hk]
  | ok p =>
    obtain ⟨ok, gk⟩ := p
    cases hc : chooseApi ok gk a.api_choice with
    | error e => simp [hk, hc]
    | ok choice =>
      simp only [hk, hc, Except.ok.injEq, Prod.mk.injEq]
      constructor
      · intro h
        exact ⟨ok, gk, choice, ⟨rfl, rfl⟩, hc, h.symm⟩
      · rintro ⟨ok', gk', choice', ⟨rfl, rfl⟩, hc', rfl⟩
        have hcc : choice = choice' := by
          have h2 := hc.symm.trans hc'
          simpa using h2
        rw [hcc]

/-- If every failure of the secret accessor is an `ImportError`, the
fallback block never lets an exception escape. -/
theorem colabFallback_ok_of_importOnly (c : ColabEnv)
    (hacc : ∀ k e, c.userdataGet k = .error e → e = .importError)
    (ok gk : Option String) : ∃ p, colabFallback c ok gk = .ok p := by
  unfold colabFallback colabBody
  cases hin : c.inColab
  · simp
  · cases him : c.importOk
    · simp
    · simp only [if_true]
      rcases h1 : (if ok.isNone then c.userdataGet "OPENAI_API_KEY" else Except.ok ok)
        with e1 | ok1
      · have he1 : e1 = .importError := by
          by_cases hno : ok.isNone
          · rw [if_pos hno] at h1
            exact hacc _ _ h1
          · rw [if_neg hno] at h1
            exact absurd h1 (by simp)
        subst he1
        simp [h1]
      · rcases h2 : (if gk.isNone then c.userdataGet "GROQ_API_KEY" else Except.ok gk)
          with e2 | gk2
        · have he2 : e2 = .importError := by
            by_cases hno : gk.isNone
            · rw [if_pos hno] at h2
              exact hacc _ _ h2
            · rw [if_neg hno] at h2
              exact absurd h2 (by simp)
          subst he2
          simp [h1, h2]
        · simp [h1, h2]

/-- `chooseApi` can only fail with the `ValueError` naming the offending
value and the valid set. -/
theorem chooseApi_error_shape (ok gk : Option String) (ac : Option String)
    (e : InitError) (h : chooseApi ok gk ac = .error e) :
    ∃ s, e = .valueError s validChoices := by
  unfold chooseApi at h
  cases ac with
  | none => simp at h
  | some c =>
    dsimp only at h
    by_cases hv : strLower c ∈ validChoices
    · rw [if_pos hv] at h
      exact absurd h (by simp)
    · rw [if_neg hv] at h
      injection h with h2
      exact ⟨c, h2.symm⟩

/-! ### Claims -/

/-- C1: with no explicit backend, auto-selection follows the fixed
precedence openai > groq > ollama over the truthiness of the credentials
the instance holds: a truthy OpenAI key selects "openai"; otherwise a
truthy Groq key selects "groq"; otherwise "ollama". -/
theorem c1_auto_selection_precedence (w : World) (a : InitArgs) (c : LLMClient)
    (hauto : a.api_choice = none) (h : LLMClient.init w a = .ok c) :
    c.api_choice =
      (if truthy c.openai_api_key then "openai"
       else if truthy c.groq_api_key then "groq" else "ollama") := by
  rw [init_ok_iff] at h
  obtain ⟨ok, gk, choice, hk, hc, rfl⟩ := h
  rw [hauto] at hc
  simp only [chooseApi, Except.ok.injEq] at hc
  exact hc.symm

/-- Witness for C1: both credentials present and truthy selects "openai". -/
theorem c1_auto_selection_precedence_witness :
    InitArgs.default.api_choice = none ∧
    LLMClient.init (plainWorld (some "sk-a") (some "gq-b")) InitArgs.default =
      .ok { openai_api_key := some "sk-a", groq_api_key := some "gq-b",
            api_choice := "openai", llm := "gpt-4o-mini", temperature := 7/10,
            max_tokens := 512, keep_alive := "5m",
            client := some (.openai (some "sk-a")) } ∧
    ({ openai_api_key := some "sk-a", groq_api_key := some "gq-b",
       api_choice := "openai", llm := "gpt-4o-mini", temperature := 7/10,
       max_tokens := 512, keep_alive := "5m",
       client := some (.openai (some "sk-a")) } : LLMClient).api_choice =
      (if truthy (some "sk-a") then "openai"
       else if truthy (some "gq-b") then "groq" else "ollama") :=
  ⟨rfl, rfl,
   c1_auto_selection_precedence (plainWorld (some "sk-a") (some "gq-b"))
     InitArgs.default
     { openai_api_key := some "sk-a", groq_api_key := some "gq-b",
       api_choice := "openai", llm := "gpt-4o-mini", temperature := 7/10,
       max_tokens := 512, keep_alive := "5m",
       client := some (.openai (some "sk-a")) } rfl rfl⟩

/-- C2: an explicit backend among the three known identifiers is always
selected (lowercased), regardless of which credentials are present or
absent, and construction succeeds without checking the chosen backend's
credential. -/
theorem c2_explicit_backend_wins (w : World) (a : InitArgs) (s : String)
    (hnc : w.colab.inColab = false) (hex : a.api_choice = some s)
    (hval : strLower s ∈ validChoices) :
    (LLMClient.init w a).map (fun c => c.api_choice) = .ok (strLower s) := by
  unfold LLMClient.init
  rw [resolveKeys_noColab w hnc]
  simp [chooseApi, hex, hval, Except.map]

/-- Witness for C2: explicit "ollama" with the OpenAI credential present
still yields the "ollama" backend. -/
theorem c2_explicit_backend_wins_witness :
    (plainWorld (some "sk-a") none).colab.inColab = false ∧
    strLower "ollama" ∈ validChoices ∧
    (LLMClient.init (plainWorld (some "sk-a") none)
        { InitArgs.default with api_choice := some "ollama" }).map
      (fun c => c.api_choice) = .ok (strLower "ollama") :=
  ⟨rfl, by decide,
   c2_explicit_backend_wins (plainWorld (some "sk-a") none)
     { InitArgs.default with api_choice := some "ollama" } "ollama"
     rfl rfl (by decide)⟩

/-- C3: explicit-backend matching is case-insensitive against the closed
set: a value whose lowercasing is outside the set fails with the ValueError
naming the offending value and the valid set, and never falls back; a value
whose lowercasing is in the set (such as "OLLAMA") is accepted and stored
lowercased. -/
theorem c3_explicit_backend_validation (w : World) (a : InitArgs) (s : String)
    (hnc : w.colab.inColab = false) (hex : a.api_choice = some s) :
    (strLower s ∉ validChoices →
      LLMClient.init w a = .error (.valueError s validChoices)) ∧
    (strLower s ∈ validChoices →
      (LLMClient.init w a).map (fun c => c.api_choice) = .ok (strLower s)) := by
  constructor <;> intro hv <;>
    (unfold LLMClient.init
     rw [resolveKeys_noColab w hnc]
     simp [chooseApi, hex, hv, Except.map])

/-- Witness for C3: the mixed-case "OLLAMA" normalizes to "ollama". -/
theorem c3_explicit_backend_validation_witness :
    (plainWorld none none).colab.inColab = false ∧
    strLower "OLLAMA" ∈ validChoices ∧
    (LLMClient.init (plainWorld none none)
        { InitArgs.default with api_choice := some "OLLAMA" }).map
      (fun c => c.api_choice) = .ok (strLower "OLLAMA") :=
  ⟨rfl, by decide,
   (c3_explicit_backend_validation (plainWorld none none)
      { InitArgs.default with api_choice := some "OLLAMA" } "OLLAMA" rfl rfl).2
     (by decide)⟩

/-- C4: with no explicit model, the resolved model is the fixed per-backend
default: "gpt-4o-mini" for openai, "moonshotai/kimi-k2-instruct-0905" for
groq, "llama3.2:1b" for ollama. -/
theorem c4_default_model_table (w : World) (a : InitArgs) (c : LLMClient)
    (hm : a.llm = none) (h : LLMClient.init w a = .ok c) :
    c.llm = (if c.api_choice == "openai" then "gpt-4o-mini"
             else if c.api_choice == "groq" then "moonshotai/kimi-k2-instruct-0905"
             else "llama3.2:1b") := by
  rw [init_ok_iff] at h
  obtain ⟨ok, gk, choice, hk, hc, rfl⟩ := h
  simp [resolveLLM, hm, resolveLLM.defaultModel]

/-- Witness for C4: no credentials and no explicit model resolve to the
ollama backend with its default model "llama3.2:1b". -/
theorem c4_default_model_table_witness :
    InitArgs.default.llm = none ∧
    LLMClient.init (plainWorld none none) InitArgs.default =
      .ok { openai_api_key := none, groq_api_key := none,
            api_choice := "ollama", llm := "llama3.2:1b", temperature := 7/10,
            max_tokens := 512, keep_alive := "5m", client := none } ∧
    ({ openai_api_key := none, groq_api_key := none,
       api_choice := "ollama", llm := "llama3.2:1b", temperature := 7/10,
       max_tokens := 512, keep_alive := "5m", client := none } : LLMClient).llm
      = "llama3.2:1b" :=
  ⟨rfl, rfl,
   c4_default_model_table (plainWorld none none) InitArgs.default
     { openai_api_key := none, groq_api_key := none,
       api_choice := "ollama", llm := "llama3.2:1b", temperature := 7/10,
       max_tokens := 512, keep_alive := "5m", client := none } rfl rfl⟩

/-- C5 counterexample: an explicitly supplied empty model string is not
stored verbatim — the resolved model is the backend default "llama3.2:1b",
which differs from the supplied "". -/
theorem c5_empty_model_not_verbatim_cex :
    (LLMClient.init (plainWorld none none)
        { InitArgs.default with llm := some "", api_choice := some "ollama" }).map
      (fun c => c.llm) = .ok "llama3.2:1b" ∧ ("llama3.2:1b" : String) ≠ "" :=
  ⟨rfl, by decide⟩

/-- C5 (amended): an explicit, non-empty model string is stored verbatim in
the resolved configuration for any backend choice; the empty string is
Python-falsy and is replaced by the backend default instead. -/
theorem c5_nonempty_model_passthrough (w : World) (a : InitArgs) (c : LLMClient)
    (s : String) (hm : a.llm = some s) (hne : s ≠ "")
    (h : LLMClient.init w a = .ok c) : c.llm = s := by
  rw [init_ok_iff] at h
  obtain ⟨ok, gk, choice, hk, hc, rfl⟩ := h
  simp [resolveLLM, hm, hne]

/-- Witness for C5: the model "mymodel" is stored verbatim. -/
theorem c5_nonempty_model_passthrough_witness :
    ({ InitArgs.default with llm := some "mymodel" } : InitArgs).llm = some "mymodel" ∧
    ("mymodel" : String) ≠ "" ∧
    LLMClient.init (plainWorld none none) { InitArgs.default with llm := some "mymodel" } =
      .ok { openai_api_key := none, groq_api_key := none,
            api_choice := "ollama", llm := "mymodel", temperature := 7/10,
            max_tokens := 512, keep_alive := "5m", client := none } ∧
    ({ openai_api_key := none, groq_api_key := none,
       api_choice := "ollama", llm := "mymodel", temperature := 7/10,
       max_tokens := 512, keep_alive := "5m", client := none } : LLMClient).llm
      = "mymodel" :=
  ⟨rfl, by decide, rfl,
   c5_nonempty_model_passthrough (plainWorld none none)
     { InitArgs.default with llm := some "mymodel" }
     { openai_api_key := none, groq_api_key := none,
       api_choice := "ollama", llm := "mymodel", temperature := 7/10,
       max_tokens := 512, keep_alive := "5m", client := none }
     "mymodel" rfl (by decide) rfl⟩

/-- C6: when the resolved backend is a cloud backend but `self.client` was
never constructed, or the backend is ollama with the ollama module
unavailable, every `chat_completion` call fails with the corresponding
RuntimeError — uniformly over every transport, i.e. before any backend
call is attempted. -/
theorem c6_unavailable_backend_fails_precall (c : LLMClient) (msgs : List Message) :
    ((c.api_choice = "openai" ∨ c.api_choice = "groq") → c.client = none →
      ∀ (avail : Bool) (t : Transport),
        c.chat_completion avail t msgs = .error (.runtimeError
          (if c.api_choice == "openai" then
            "OpenAI client not available or not installed."
           else "Groq client not available or not installed."))) ∧
    (c.api_choice = "ollama" → ∀ t : Transport,
      c.chat_completion false t msgs = .error (.runtimeError
        ("Ollama Python package not available. " ++
         "Please install it via `pip install ollama`."))) := by
  constructor
  · rintro (h | h) hcl avail t <;> simp [LLMClient.chat_completion, h, hcl]
  · intro h t
    simp [LLMClient.chat_completion, h]

/-- Witness for C6: an openai-backend instance without a constructed client
fails with the RuntimeError, with a transport in scope that is never
consulted. -/
theorem c6_unavailable_backend_fails_precall_witness :
    (({ openai_api_key := none, groq_api_key := none, api_choice := "openai",
        llm := "gpt-4o-mini", temperature := 7/10, max_tokens := 512,
        keep_alive := "5m", client := none } : LLMClient).api_choice = "openai" ∨
     ({ openai_api_key := none, groq_api_key := none, api_choice := "openai",
        llm := "gpt-4o-mini", temperature := 7/10, max_tokens := 512,
        keep_alive := "5m", client := none } : LLMClient).api_choice = "groq") ∧
    ({ openai_api_key := none, groq_api_key := none, api_choice := "openai",
       llm := "gpt-4o-mini", temperature := 7/10, max_tokens := 512,
       keep_alive := "5m", client := none } : LLMClient).client = none ∧
    LLMClient.chat_completion true (echoTransport "hi")
      { openai_api_key := none, groq_api_key := none, api_choice := "openai",
        llm := "gpt-4o-mini", temperature := 7/10, max_tokens := 512,
        keep_alive := "5m", client := none } [] =
      .error (.runtimeError "OpenAI client not available or not installed.") :=
  ⟨Or.inl rfl, rfl,
   (c6_unavailable_backend_fails_precall
      { openai_api_key := none, groq_api_key := none, api_choice := "openai",
        llm := "gpt-4o-mini", temperature := 7/10, max_tokens := 512,
        keep_alive := "5m", client := none } []).1
     (Or.inl rfl) rfl true (echoTransport "hi")⟩

/-- C7 counterexample: a failure of the hosted-runtime secret accessor that
is not an import error (such as Colab's SecretNotFoundError) propagates out
of the constructor instead of being swallowed. -/
theorem c7_colab_secret_failure_raises_cex :
    LLMClient.init
      { env := { openai_api_key := none, groq_api_key := none },
        colab := { inColab := true, importOk := true,
                   userdataGet := fun _ => .error (.otherError "SecretNotFoundError") },
        openaiAvail := true, groqAvail := true, ollamaAvail := true }
      InitArgs.default =
      .error (.exc (.otherError "SecretNotFoundError")) := rfl

/-- C7 (amended): only import failures of the hosted-runtime fallback are
swallowed: when every failure of the secret accessor is an ImportError, no
exception from the fallback ever escapes the constructor. -/
theorem c7_colab_import_failures_swallowed (w : World) (a : InitArgs)
    (hacc : ∀ k e, w.colab.userdataGet k = .error e → e = .importError) :
    ∀ e, LLMClient.init w a ≠ .error (.exc e) := by
  intro e h
  obtain ⟨⟨ok, gk⟩, hk⟩ : ∃ p, resolveKeys w = .ok p := by
    simp only [resolveKeys]
    split
    · exact colabFallback_ok_of_importOnly w.colab hacc _ _
    · exact ⟨_, rfl⟩
  unfold LLMClient.init at h
  simp only [hk] at h
  cases hc : chooseApi ok gk a.api_choice with
  | error e' =>
    simp only [hc] at h
    obtain ⟨s, hs⟩ := chooseApi_error_shape ok gk a.api_choice e' hc
    injection h with h2
    rw [hs] at h2
    exact InitError.noConfusion h2
  | ok choice =>
    simp only [hc] at h
    exact Except.noConfusion h

/-- Witness for C7: an accessor that always raises ImportError never makes
construction fail. -/
theorem c7_colab_import_failures_swallowed_witness :
    (∀ k e, ({ inColab := true, importOk := true,
               userdataGet := fun _ => .error .importError } : ColabEnv).userdataGet k
        = .error e → e = .importError) ∧
    ∀ e, LLMClient.init
        { env := { openai_api_key := none, groq_api_key := none },
          colab := { inColab := true, importOk := true,
                     userdataGet := fun _ => .error .importError },
          openaiAvail := true, groqAvail := true, ollamaAvail := true }
        InitArgs.default ≠ .error (.exc e) :=
  ⟨fun _ e he => by injection he with h2; exact h2.symm,
   c7_colab_import_failures_swallowed
     { env := { openai_api_key := none, groq_api_key := none },
       colab := { inColab := true, importOk := true,
                  userdataGet := fun _ => .error .importError },
       openaiAvail := true, groqAvail := true, ollamaAvail := true }
     InitArgs.default
     (fun _ e he => by injection he with h2; exact h2.symm)⟩

/-- C8: an ollama-backend `chat_completion` with the module available calls
`ollama.chat` with streaming disabled, the fixed sampling constants
(repeat_penalty 1.2, top_k 10, top_p 0.5), the configured temperature,
max_tokens and keep_alive, and returns the response envelope's message
content. -/
theorem c8_ollama_call_shape (t : Transport) (c : LLMClient)
    (msgs : List Message) (h : c.api_choice = "ollama") :
    c.chat_completion true t msgs =
      .ok ((t.ollamaChat c.llm msgs false
            { temperature := c.temperature, num_predict := c.max_tokens,
              repeat_penalty := 6/5, top_k := 10, top_p := 1/2 }
            c.keep_alive).message.content) := by
  simp [LLMClient.chat_completion, h]

/-- Witness for C8: an ollama client with an echoing transport returns the
transport's fixed reply. -/
theorem c8_ollama_call_shape_witness :
    ({ openai_api_key := none, groq_api_key := none, api_choice := "ollama",
       llm := "llama3.2:1b", temperature := 7/10, max_tokens := 512,
       keep_alive := "5m", client := none } : LLMClient).api_choice = "ollama" ∧
    LLMClient.chat_completion true (echoTransport "hello")
      { openai_api_key := none, groq_api_key := none, api_choice := "ollama",
        llm := "llama3.2:1b", temperature := 7/10, max_tokens := 512,
        keep_alive := "5m", client := none } [] = .ok "hello" :=
  ⟨rfl,
   c8_ollama_call_shape (echoTransport "hello")
     { openai_api_key := none, groq_api_key := none, api_choice := "ollama",
       llm := "llama3.2:1b", temperature := 7/10, max_tokens := 512,
       keep_alive := "5m", client := none } [] rfl⟩

/-- C9 counterexample: an instance whose resolved backend is "openai" also
has the Groq credential attached, so an instance does not hold exactly the
one credential matching its backend. -/
theorem c9_both_credentials_attached_cex :
    (LLMClient.init (plainWorld (some "sk-a") (some "gq-b")) InitArgs.default).map
      (fun c => (c.api_choice, c.openai_api_key, c.groq_api_key)) =
      .ok ("openai", some "sk-a", some "gq-b") ∧
    (some "gq-b" : Option String) ≠ none :=
  ⟨rfl, by decide⟩

/-- C9 (amended): every instance stores both credential attributes exactly
as the environment provided them, regardless of the resolved backend; the
provider client, when constructed, is bound to its own backend's
credential, and an ollama instance has no provider client. -/
theorem c9_credentials_stored_independent_of_backend (w : World) (a : InitArgs)
    (c : LLMClient) (hnc : w.colab.inColab = false)
    (h : LLMClient.init w a = .ok c) :
    c.openai_api_key = w.env.openai_api_key ∧
    c.groq_api_key = w.env.groq_api_key ∧
    (c.api_choice = "openai" → w.openaiAvail = true →
      c.client = some (.openai w.env.openai_api_key)) ∧
    (c.api_choice = "groq" → w.groqAvail = true →
      c.client = some (.groq w.env.groq_api_key)) ∧
    (c.api_choice = "ollama" → c.client = none) := by
  rw [init_ok_iff] at h
  obtain ⟨ok, gk, choice, hk, hc, rfl⟩ := h
  rw [resolveKeys_noColab w hnc] at hk
  injection hk with h2
  obtain ⟨h3, h4⟩ := Prod.mk.injEq .. ▸ h2
  subst h3
  subst h4
  refine ⟨rfl, rfl, ?_, ?_, ?_⟩ <;> intro hch
  · intro havail
    dsimp only at hch
    subst hch
    simp [mkProvider, havail]
  · intro havail
    dsimp only at hch
    subst hch
    simp [mkProvider, havail]
  · dsimp only at hch
    subst hch
    simp [mkProvider]

/-- Witness for C9: an explicitly-ollama instance in a world with the
OpenAI credential present keeps that credential attached and has no
provider client. -/
theorem c9_credentials_stored_independent_of_backend_witness :
    LLMClient.init (plainWorld (some "sk-a") none)
        { InitArgs.default with api_choice := some "ollama" } =
      .ok { openai_api_key := some "sk-a", groq_api_key := none,
            api_choice := "ollama", llm := "llama3.2:1b", temperature := 7/10,
            max_tokens := 512, keep_alive := "5m", client := none } ∧
    ({ openai_api_key := some "sk-a", groq_api_key := none,
       api_choice := "ollama", llm := "llama3.2:1b", temperature := 7/10,
       max_tokens := 512, keep_alive := "5m",
       client := none } : LLMClient).openai_api_key = some "sk-a" ∧
    ({ openai_api_key := some "sk-a", groq_api_key := none,
       api_choice := "ollama", llm := "llama3.2:1b", temperature := 7/10,
       max_tokens := 512, keep_alive := "5m",
       client := none } : LLMClient).client = none :=
  ⟨rfl,
   (c9_credentials_stored_independent_of_backend (plainWorld (some "sk-a") none)
      { InitArgs.default with api_choice := some "ollama" }
      { openai_api_key := some "sk-a", groq_api_key := none,
        api_choice := "ollama", llm := "llama3.2:1b", temperature := 7/10,
        max_tokens := 512, keep_alive := "5m", client := none } rfl rfl).1,
   (c9_credentials_stored_independent_of_backend (plainWorld (some "sk-a") none)
      { InitArgs.default with api_choice := some "ollama" }
      { openai_api_key := some "sk-a", groq_api_key := none,
        api_choice := "ollama", llm := "llama3.2:1b", temperature := 7/10,
        max_tokens := 512, keep_alive := "5m", client := none } rfl rfl).2.2.2.2 rfl⟩

/-- C10: in auto-selection a credential whose environment value is the
empty string is Python-falsy and treated as absent: an empty OpenAI key
with a non-empty Groq key selects "groq", and both keys empty selects
"ollama". -/
theorem c10_empty_credential_treated_absent (w : World) (a : InitArgs)
    (hauto : a.api_choice = none) (ho : w.env.openai_api_key = some "") :
    (∀ g, g ≠ "" → w.env.groq_api_key = some g →
      (LLMClient.init w a).map (fun c => c.api_choice) = .ok "groq") ∧
    (w.env.groq_api_key = some "" →
      (LLMClient.init w a).map (fun c => c.api_choice) = .ok "ollama") := by
  constructor
  · intro g hg hgk
    unfold LLMClient.init
    rw [resolveKeys_bothSet w "" g ho hgk]
    simp [chooseApi, hauto, truthy, hg, Except.map]
  · intro hgk
    unfold LLMClient.init
    rw [resolveKeys_bothSet w "" "" ho hgk]
    simp [chooseApi, hauto, truthy, Except.map]

/-- Witness for C10: an empty OpenAI key with Groq key "gq-b" selects
"groq"; both keys empty select "ollama". -/
theorem c10_empty_credential_treated_absent_witness :
    (LLMClient.init (plainWorld (some "") (some "gq-b")) InitArgs.default).map
      (fun c => c.api_choice) = .ok "groq" ∧
    (LLMClient.init (plainWorld (some "") (some "")) InitArgs.default).map
      (fun c => c.api_choice) = .ok "ollama" :=
  ⟨(c10_empty_credential_treated_absent (plainWorld (some "") (some "gq-b"))
      InitArgs.default rfl rfl).1 "gq-b" (by decide) rfl,
   (c10_empty_credential_treated_absent (plainWorld (some "") (some ""))
      InitArgs.default rfl rfl).2 rfl⟩

end LLMSpec
